import Mathlib

/-!
Verification of the distributed ride-dispatch driver ring (tp2/driver).

This file gives a shallow embedding of the driver actor's state and of the
message handlers relevant to the dispatch protocol, translated from
src/tp2/driver/src/driver.rs and src/tp2/driver/src/lib.rs, and proves or
refutes the specification claims about them.

Modelling conventions:
- u8/u16 values are Nat; the only machine-arithmetic effect in the embedded
  code is the `as u8` truncation inside manhattan_distance, rendered as % 256.
- Rust HashMaps are association lists; the list order stands for the map's
  (unspecified) iteration order.  alookup / ainsert / aremove mirror
  HashMap::get / insert / remove; ainsert replaces in place.
- Socket write-halves carry no data, so their presence is a Bool.
- actix do_send calls are recorded as an output list (type Out); each handler
  is a pure function Driver -> msg -> Driver x List Out.
- serde decoding of a wire line is abstracted to the decode result
  Option DriverMsg; the random coin of rand::gen_bool is an explicit Bool
  parameter.
-/

namespace RideDispatch

/-- Driver status, from enum DriverStatus in driver.rs. -/
inductive DriverStatus
  | Available
  | Busy
deriving DecidableEq, Repr

/-- A grid position (u8, u8). -/
abbrev Pos := Nat × Nat

/-- HashMap::get on an association list. -/
def alookup (k : Nat) : List (Nat × α) → Option α
  | [] => none
  | (k', v) :: rest => if k' = k then some v else alookup k rest

/-- HashMap::insert on an association list: replace in place, else append. -/
def ainsert (k : Nat) (v : α) : List (Nat × α) → List (Nat × α)
  | [] => [(k, v)]
  | (k', v') :: rest => if k' = k then (k, v) :: rest else (k', v') :: ainsert k v rest

/-- HashMap::remove on an association list. -/
def aremove (k : Nat) : List (Nat × α) → List (Nat × α)
  | [] => []
  | (k', v) :: rest => if k' = k then aremove k rest else (k', v) :: aremove k rest

/-- Connection origin, from enum ConnectionType in driver_messages.rs
(field name from is a Lean keyword, rendered fromType). -/
inductive ConnectionType
  | Driver
  | Passenger
deriving DecidableEq, Repr

/-- Reason attached to a declined trip, from enum DeclineReason. -/
inductive DeclineReason
  | NotAccepted
  | DriversBusy
deriving DecidableEq, Repr

/-- Connect message payload, from struct Connect in driver_messages.rs. -/
structure Connect where
  fromType : ConnectionType
  id : Nat
  coordinator_id : Option Nat
deriving DecidableEq, Repr

/-- NewCoordinator message payload. -/
structure NewCoordinator where
  id : Nat
deriving DecidableEq, Repr

/-- CoordinatesResponse payload: the availability snapshot being gathered. -/
structure CoordinatesResponse where
  drivers_coordinates : List (Nat × Pos)
  passenger_id : Nat
deriving DecidableEq, Repr

/-- OfferToDriver message payload. -/
structure OfferToDriver where
  driver_id : Nat
  origin : Pos
  destination : Pos
  passenger_id : Nat
deriving DecidableEq, Repr

/-- TripResponse message payload. -/
structure TripResponse where
  status : Bool
  reason : Option DeclineReason
  passenger_id : Nat
  driver_id : Nat
deriving DecidableEq, Repr

/-- SendTripEnded message payload. -/
structure SendTripEnded where
  passenger_id : Nat
deriving DecidableEq, Repr

/-- DriverConnected message payload. -/
structure DriverConnected where
  driver_id : Nat
deriving DecidableEq, Repr

/-- UnresolvedTrip message payload. -/
structure UnresolvedTrip where
  passenger_id : Nat
  driver_id : Nat
deriving DecidableEq, Repr

/-- Ring wire messages, from enum DriverMsg in driver_messages.rs. -/
inductive DriverMsg
  | TripRequest (start stop : Pos)
  | Connect (c : Connect)
  | Disconnect
  | NewCoordinator (m : NewCoordinator)
  | CoordinatesRequest (passenger_id : Nat)
  | CoordinatesResponse (m : CoordinatesResponse)
  | OfferToDriver (m : OfferToDriver)
  | TripResponse (m : TripResponse)
  | SendTripEnded (m : SendTripEnded)
  | DriverConnected (m : DriverConnected)
  | UnresolvedTrip (m : UnresolvedTrip)
deriving DecidableEq, Repr

/-- Passenger-facing wire messages, from enum PassengerMsg. -/
inductive PassengerMsg
  | TripResponse (m : TripResponse)
  | TripStarted
  | TripEnded
  | ConnectRes (status : Bool) (leader_id : Option Nat)
deriving DecidableEq, Repr

/-- A framed wire message (the value format_msg serializes): either a ring
message or a passenger message. -/
inductive Wire
  | D (m : DriverMsg)
  | P (m : PassengerMsg)
deriving DecidableEq, Repr

/-- One recorded effect of a handler: either an actual socket write request
(SendToRight / SendToPassenger with the framed payload) or an internal
do_send of an actix message to the driver actor itself. -/
inductive Out
  | SendToRight (w : Wire)
  | SendToPassenger (passenger_id : Nat) (w : Wire)
  | CoordinatesRequestEv (passenger_id : Nat)
  | SelectDriverEv (passenger_id : Nat)
  | OfferToDriverEv (m : OfferToDriver)
  | HandleOfferEv (m : OfferToDriver)
  | TripEndedTimer (passenger_id : Nat)
  | SendTripEndedEv (passenger_id : Nat)
  | ChangeStatusEv
  | ConnectToRightEv
  | DisconnectEv (new_id : Nat)
  | DriverConnectedEv (m : DriverConnected)
  | UnresolvedTripEv (m : UnresolvedTrip)
  | NewCoordinatorEv (m : NewCoordinator)
  | CoordinatesResponseEv (m : CoordinatesResponse)
  | TripResponseEv (m : TripResponse)
  | ConnectEv (c : Connect)
  | InvalidMessage
deriving DecidableEq, Repr

/-- The driver actor state, from struct Driver in driver.rs.  The passenger
writer map and the unresolved byte buffers are omitted (no claim inspects
them); writer halves are modelled by their presence. -/
structure Driver where
  id : Nat
  coordinates : Pos
  status : DriverStatus
  free_drivers_position : Option (List (Nat × Pos))
  driver_left_id : Option Nat
  driver_left_write : Bool
  driver_right_id : Option Nat
  driver_right_write : Bool
  coordinator_id : Option Nat
  passengers_trips : Option (List (Nat × (Pos × Pos)))
  trips_drivers_declined : Option (List (Nat × List Nat))
  started_trips : List (Nat × Nat)
deriving DecidableEq, Repr

/-- manhattan_distance from lib.rs: the absolute coordinate differences are
summed in i16 (exact, since both inputs are u8) and the sum is cast with
as u8, which keeps only the low 8 bits, i.e. reduces mod 256. -/
def manhattan_distance (a b : Pos) : Nat :=
  (((a.1 : Int) - (b.1 : Int)).natAbs + ((a.2 : Int) - (b.2 : Int)).natAbs) % 256

/-- The Manhattan distance exactly as the specification writes it:
abs (x1 - x2) + abs (y1 - y2), with no truncation. -/
def specManhattan (a b : Pos) : Nat :=
  (((a.1 : Int) - (b.1 : Int)).natAbs + ((a.2 : Int) - (b.2 : Int)).natAbs)

/-- Iterator::min_by_key: the first element attaining the minimal key, in
iteration order. -/
def minByKey (key : α → Nat) : List α → Option α
  | [] => none
  | x :: xs =>
    match minByKey key xs with
    | none => some x
    | some y => if key x ≤ key y then some x else some y

/-- The declined-driver list the SelectDriver handler reads for a passenger:
trips_drivers_declined[pid], defaulting to the empty list. -/
def declinedOf (d : Driver) (pid : Nat) : List Nat :=
  match d.trips_drivers_declined with
  | some m => (alookup pid m).getD []
  | none => []

/-- Handler of SelectDriver (driver.rs): among the snapshot entries whose id
is not in the declined list, offer to the min_by_key of the wrapped distance
to the trip origin; with no candidate, answer the passenger with a declined
TripResponse (reason DriversBusy when the declined list is empty, else
NotAccepted) and remove the pending trip. -/
def selectDriverHandler (d : Driver) (passenger_id : Nat) : Driver × List Out :=
  let declined_drivers := declinedOf d passenger_id
  match d.free_drivers_position, d.passengers_trips with
  | some drivers, some trips =>
    match alookup passenger_id trips with
    | some (start, _) =>
      let closest_driver :=
        minByKey (fun e => manhattan_distance e.2 start)
          (drivers.filter (fun e => !(declined_drivers.contains e.1)))
      match closest_driver with
      | some e =>
        (d, [Out.OfferToDriverEv
              { driver_id := e.1
                origin := start
                destination := ((alookup passenger_id trips).getD ((0, 0), (0, 0))).2
                passenger_id := passenger_id }])
      | none =>
        let reason := match declined_drivers.length with
          | 0 => some DeclineReason.DriversBusy
          | _ + 1 => some DeclineReason.NotAccepted
        let decline_msg := Wire.D (DriverMsg.TripResponse
          { status := false
            reason := reason
            passenger_id := passenger_id
            driver_id := d.id })
        ({ d with passengers_trips := some (aremove passenger_id trips) },
          [Out.SendToPassenger passenger_id decline_msg])
    | none => (d, [])
  | _, _ => (d, [])

/-- Handler of TripResponse (driver.rs): a non-coordinator forwards it
rightward.  The coordinator, on status = false, pushes passenger_id (the
literal field pushed by the source) onto trips_drivers_declined[passenger_id]
and restarts the position gather; on status = true it records
started_trips[driver_id] = passenger_id and forwards the response to the
passenger. -/
def tripResponseHandler (d : Driver) (msg : TripResponse) : Driver × List Out :=
  if d.id ≠ d.coordinator_id.getD d.id then
    (d, [Out.SendToRight (Wire.D (DriverMsg.TripResponse msg))])
  else
    let passenger_id := msg.passenger_id
    if !msg.status then
      let declined := d.trips_drivers_declined.getD []
      let entry := (alookup passenger_id declined).getD []
      ({ d with trips_drivers_declined :=
            some (ainsert passenger_id (entry ++ [passenger_id]) declined) },
        [Out.CoordinatesRequestEv passenger_id])
    else
      ({ d with started_trips := ainsert msg.driver_id passenger_id d.started_trips },
        [Out.SendToPassenger passenger_id (Wire.P (PassengerMsg.TripResponse msg))])

/-- Handler of SendTripEnded (driver.rs): a non-coordinator forwards it.
The coordinator removes the started_trips entry whose value is the
passenger (if any), removes the pending trip, and always forwards TripEnded
to the passenger. -/
def sendTripEndedHandler (d : Driver) (msg : SendTripEnded) : Driver × List Out :=
  if d.id ≠ d.coordinator_id.getD d.id then
    (d, [Out.SendToRight (Wire.D (DriverMsg.SendTripEnded msg))])
  else
    let key := (d.started_trips.find? (fun kv => kv.2 == msg.passenger_id)).map
      (fun kv => kv.1)
    let d1 := match key with
      | some driver_id => { d with started_trips := aremove driver_id d.started_trips }
      | none => d
    let d2 := match d1.passengers_trips with
      | some trips => { d1 with passengers_trips := some (aremove msg.passenger_id trips) }
      | none => d1
    (d2, [Out.SendToPassenger msg.passenger_id (Wire.P PassengerMsg.TripEnded)])

/-- Handler of UnresolvedTrip (driver.rs): forwarded rightward unless this
driver is the target, which converts it into an immediate SendTripEnded. -/
def unresolvedTripHandler (d : Driver) (msg : UnresolvedTrip) : Driver × List Out :=
  if d.id ≠ msg.driver_id then
    (d, [Out.SendToRight (Wire.D (DriverMsg.UnresolvedTrip msg))])
  else
    (d, [Out.SendTripEndedEv msg.passenger_id])

/-- Handler of DriverConnected (driver.rs): a non-coordinator forwards it;
additionally, if started_trips records a trip for the reconnected driver, an
UnresolvedTrip for it is emitted rightward. -/
def driverConnectedHandler (d : Driver) (msg : DriverConnected) : Driver × List Out :=
  let fwd := if d.id ≠ d.coordinator_id.getD d.id then
      [Out.SendToRight (Wire.D (DriverMsg.DriverConnected msg))]
    else []
  if d.started_trips.any (fun kv => kv.1 == msg.driver_id) then
    match alookup msg.driver_id d.started_trips with
    | some passenger_id =>
      (d, fwd ++ [Out.SendToRight (Wire.D (DriverMsg.UnresolvedTrip
            { passenger_id := passenger_id, driver_id := msg.driver_id }))])
    | none => (d, fwd)
  else
    (d, fwd)

/-- The deferred action of Handler of TripEnded (driver.rs): after the 10 s
trip simulation sleep, the spawned task posts ChangeStatus and then either a
local SendTripEnded (on the coordinator) or a rightward SendTripEnded wire
message.  id and coordinator_id are captured when the trip starts. -/
def tripEndedTimerFire (d : Driver) (passenger_id : Nat) : List Out :=
  let coordinator_id := d.coordinator_id.getD d.id
  Out.ChangeStatusEv ::
    (if d.id = coordinator_id then
      [Out.SendTripEndedEv passenger_id]
    else
      [Out.SendToRight (Wire.D (DriverMsg.SendTripEnded { passenger_id := passenger_id }))])

/-- Handler of ChangeStatus (driver.rs): Busy becomes Available, anything
else becomes Busy. -/
def changeStatusHandler : DriverStatus → DriverStatus
  | DriverStatus.Busy => DriverStatus.Available
  | DriverStatus.Available => DriverStatus.Busy

/-- Handler of HandleOffer (driver.rs) for an offer addressed to this driver
or not; coin is the rand::gen_bool(0.5) draw.  An addressed Busy driver
overrides the coin with false; the TripResponse is sent to the passenger
directly when this driver is the coordinator (framed as a DriverMsg, as in
the source) and rightward otherwise; on acceptance the driver turns Busy and
posts the TripEnded trip-simulation message to itself. -/
def handleOfferHandler (d : Driver) (offer : OfferToDriver) (coin : Bool) :
    Driver × List Out :=
  if offer.driver_id = d.id then
    let status := if d.status = DriverStatus.Busy then false else coin
    let tr : TripResponse :=
      { status := status
        reason := none
        passenger_id := offer.passenger_id
        driver_id := d.id }
    let step1 : Driver × List Out :=
      if d.id = d.coordinator_id.getD d.id then
        let d1 := match d.passengers_trips with
          | some trips =>
            { d with passengers_trips := some (aremove offer.passenger_id trips) }
          | none => d
        (d1, [Out.SendToPassenger offer.passenger_id (Wire.D (DriverMsg.TripResponse tr))])
      else
        (d, [Out.SendToRight (Wire.D (DriverMsg.TripResponse tr))])
    if status then
      ({ step1.1 with status := DriverStatus.Busy },
        step1.2 ++ [Out.TripEndedTimer offer.passenger_id])
    else
      step1
  else
    (d, [Out.SendToRight (Wire.D (DriverMsg.OfferToDriver offer))])

/-- The Some branch of the ConnectToRight continuation (driver.rs): record
the new right link; when the right neighbor id is below this id, the Connect
message advertises this driver as coordinator (the local variable only: the
field is not written); otherwise, a driver that believed itself coordinator
adopts the neighbor, and the Connect advertises the current belief. -/
def connectToRightSome (d : Driver) (driver_id : Nat) : Driver × List Out :=
  let d0 := { d with driver_right_write := true, driver_right_id := some driver_id }
  let step : Driver × Option Nat :=
    if driver_id < d0.id then
      (d0, some d0.id)
    else
      let d1 := match d0.coordinator_id with
        | some current_coordinator =>
          if d0.id = current_coordinator then
            { d0 with coordinator_id := some driver_id }
          else d0
        | none => d0
      (d1, d1.coordinator_id)
  (step.1, [Out.SendToRight (Wire.D (DriverMsg.Connect
      { fromType := ConnectionType.Driver
        id := step.1.id
        coordinator_id := step.2 }))])

/-- handle_driver_connection (driver.rs): the recipient of an inbound driver
Connect adopts the advertised coordinator (when present) and announces it
rightward; the inbound link replaces the left (disconnecting a previous
left); a driver with no right link probes right, otherwise it announces
DriverConnected rightward. -/
def handle_driver_connection (d : Driver) (id : Nat) (coordinator_id : Option Nat) :
    Driver × List Out :=
  let step1 : Driver × List Out :=
    match coordinator_id with
    | some c =>
      ({ d with coordinator_id := some c },
        [Out.SendToRight (Wire.D (DriverMsg.NewCoordinator { id := c }))])
    | none => (d, [])
  let step2 : Driver × List Out :=
    if step1.1.driver_left_write then
      (step1.1, [Out.DisconnectEv id])
    else
      ({ step1.1 with driver_left_id := some id, driver_left_write := true }, [])
  let outs3 :=
    if step2.1.driver_right_id.isNone then
      [Out.ConnectToRightEv]
    else
      [Out.SendToRight (Wire.D (DriverMsg.DriverConnected { driver_id := id }))]
  (step2.1, step1.2 ++ step2.2 ++ outs3)

/-- Handler of NewCoordinator (driver.rs): adopt the announced coordinator
and forward the announcement unless it names this driver. -/
def newCoordinatorHandler (d : Driver) (msg : NewCoordinator) : Driver × List Out :=
  let d1 := { d with coordinator_id := some msg.id }
  if msg.id ≠ d1.id then
    (d1, [Out.SendToRight (Wire.D (DriverMsg.NewCoordinator msg))])
  else
    (d1, [])

/-- parse_messages (lib.rs): each line of the read buffer is decoded
independently and undecodable lines are skipped.  A line is abstracted to
its decode result. -/
def parse_messages (buffer : List (Option DriverMsg)) : List DriverMsg :=
  buffer.filterMap id

/-- The dispatch loop of the NewConnection handler (driver.rs): the parsed
batch is traversed in reverse (into_iter().rev()); a Connect line ends the
loop by handing the socket over, UnresolvedTrip and DriverConnected are
posted to the actor, anything else is logged as invalid. -/
def newConnectionLoop : List DriverMsg → List Out
  | [] => []
  | m :: rest =>
    match m with
    | DriverMsg.Connect c => [Out.ConnectEv c]
    | DriverMsg.UnresolvedTrip u => Out.UnresolvedTripEv u :: newConnectionLoop rest
    | DriverMsg.DriverConnected c => Out.DriverConnectedEv c :: newConnectionLoop rest
    | _ => Out.InvalidMessage :: newConnectionLoop rest

/-- Dispatch order of the batch read on a brand-new connection: the source
iterates the parsed messages reversed. -/
def newConnectionDispatch (msgs : List DriverMsg) : List Out :=
  newConnectionLoop msgs.reverse

/-- The per-line dispatch of recive_driver_messages (lib.rs) over the decode
results of one read: lines are handled in stream order; an undecodable line
is skipped; Disconnect posts ConnectToRight and ends the reader. -/
def reciveDriverDispatch : List (Option DriverMsg) → List Out
  | [] => []
  | none :: rest => reciveDriverDispatch rest
  | some m :: rest =>
    match m with
    | DriverMsg.Disconnect => [Out.ConnectToRightEv]
    | DriverMsg.NewCoordinator x => Out.NewCoordinatorEv x :: reciveDriverDispatch rest
    | DriverMsg.CoordinatesRequest pid =>
      Out.CoordinatesRequestEv pid :: reciveDriverDispatch rest
    | DriverMsg.CoordinatesResponse x =>
      Out.CoordinatesResponseEv x :: reciveDriverDispatch rest
    | DriverMsg.OfferToDriver offer => Out.HandleOfferEv offer :: reciveDriverDispatch rest
    | DriverMsg.TripResponse x => Out.TripResponseEv x :: reciveDriverDispatch rest
    | DriverMsg.SendTripEnded x =>
      Out.SendTripEndedEv x.passenger_id :: reciveDriverDispatch rest
    | DriverMsg.DriverConnected x => Out.DriverConnectedEv x :: reciveDriverDispatch rest
    | DriverMsg.UnresolvedTrip x => Out.UnresolvedTripEv x :: reciveDriverDispatch rest
    | _ => reciveDriverDispatch rest

/-- The event recive_driver_messages posts for a handled ring message
(placeholder value for the variants the loop skips or that end it). -/
def ringEvent : DriverMsg → Out
  | DriverMsg.NewCoordinator x => Out.NewCoordinatorEv x
  | DriverMsg.CoordinatesRequest pid => Out.CoordinatesRequestEv pid
  | DriverMsg.CoordinatesResponse x => Out.CoordinatesResponseEv x
  | DriverMsg.OfferToDriver offer => Out.HandleOfferEv offer
  | DriverMsg.TripResponse x => Out.TripResponseEv x
  | DriverMsg.SendTripEnded x => Out.SendTripEndedEv x.passenger_id
  | DriverMsg.DriverConnected x => Out.DriverConnectedEv x
  | DriverMsg.UnresolvedTrip x => Out.UnresolvedTripEv x
  | _ => Out.InvalidMessage

/-- Messages the recive_driver_messages loop dispatches and keeps looping on
(everything except TripRequest and Connect, which it ignores, and
Disconnect, which ends the reader). -/
def ringDispatchable : DriverMsg → Bool
  | DriverMsg.TripRequest _ _ => false
  | DriverMsg.Connect _ => false
  | DriverMsg.Disconnect => false
  | _ => true

/-- The event the NewConnection batch loop posts for one message. -/
def batchEvent : DriverMsg → Out
  | DriverMsg.UnresolvedTrip u => Out.UnresolvedTripEv u
  | DriverMsg.DriverConnected c => Out.DriverConnectedEv c
  | _ => Out.InvalidMessage

/-- Recognizer of the Connect variant, which ends the batch loop. -/
def isConnectMsg : DriverMsg → Bool
  | DriverMsg.Connect _ => true
  | _ => false

/- ## Helper lemmas -/

theorem alookup_ainsert (k : Nat) (v : α) :
    ∀ l : List (Nat × α), alookup k (ainsert k v l) = some v
  | [] => by simp [ainsert, alookup]
  | (k', v') :: rest => by
    by_cases h : k' = k
    · simp [ainsert, alookup, h]
    · simp [ainsert, alookup, h, alookup_ainsert k v rest]

theorem alookup_aremove (k : Nat) :
    ∀ l : List (Nat × α), alookup k (aremove k l) = none
  | [] => by simp [aremove, alookup]
  | (k', v') :: rest => by
    by_cases h : k' = k
    · simp [aremove, h, alookup_aremove k rest]
    · simp [aremove, alookup, h, alookup_aremove k rest]

theorem minByKey_eq_none (key : α → Nat) (l : List α)
    (h : minByKey key l = none) : l = [] := by
  cases l with
  | nil => rfl
  | cons a t =>
    rw [minByKey] at h
    cases ht : minByKey key t with
    | none => rw [ht] at h; exact absurd h (by simp)
    | some y =>
      rw [ht] at h
      simp only [] at h
      split at h <;> simp at h

theorem minByKey_eq_some (key : α → Nat) :
    ∀ (l : List α) (x : α), minByKey key l = some x →
      ∃ l1 l2, l = l1 ++ x :: l2
        ∧ (∀ y ∈ l1, key x < key y)
        ∧ (∀ y ∈ l2, key x ≤ key y) := by
  intro l
  induction l with
  | nil => intro x h; rw [minByKey] at h; exact absurd h (by simp)
  | cons a t ih =>
    intro x h
    rw [minByKey] at h
    cases ht : minByKey key t with
    | none =>
      rw [ht] at h
      simp only [] at h
      have hx : a = x := by simpa using h
      have htnil : t = [] := minByKey_eq_none key t ht
      subst hx
      exact ⟨[], t, by simp, by simp, by intro y hy; rw [htnil] at hy; simp at hy⟩
    | some y =>
      rw [ht] at h
      simp only [] at h
      obtain ⟨l1, l2, heq, hlt, hle⟩ := ih y ht
      by_cases hky : key a ≤ key y
      · rw [if_pos hky] at h
        have hx : a = x := by simpa using h
        subst hx
        refine ⟨[], t, by simp, by simp, ?_⟩
        intro z hz
        rw [heq] at hz
        rcases List.mem_append.mp hz with hz1 | hz2
        · exact le_of_lt (lt_of_le_of_lt hky (hlt z hz1))
        · rcases List.mem_cons.mp hz2 with hz3 | hz4
          · rw [hz3]; exact hky
          · exact le_trans hky (hle z hz4)
      · rw [if_neg hky] at h
        have hx : y = x := by simpa using h
        subst hx
        refine ⟨a :: l1, l2, by rw [heq]; simp, ?_, hle⟩
        intro z hz
        rcases List.mem_cons.mp hz with hz1 | hz2
        · rw [hz1]; exact Nat.lt_of_not_le hky
        · exact hlt z hz2

theorem reciveDispatch_in_order (msgs : List DriverMsg)
    (h : ∀ m ∈ msgs, ringDispatchable m = true) :
    reciveDriverDispatch (msgs.map some) = msgs.map ringEvent := by
  induction msgs with
  | nil => rfl
  | cons a t ih =>
    have ha := h a (by simp)
    have ht : ∀ m ∈ t, ringDispatchable m = true := fun m hm => h m (by simp [hm])
    cases a <;> simp [ringDispatchable] at ha <;>
      simp [reciveDriverDispatch, ringEvent, ih ht]

theorem newConnectionLoop_map (msgs : List DriverMsg)
    (h : ∀ m ∈ msgs, isConnectMsg m = false) :
    newConnectionLoop msgs = msgs.map batchEvent := by
  induction msgs with
  | nil => rfl
  | cons a t ih =>
    have ha := h a (by simp)
    have ht : ∀ m ∈ t, isConnectMsg m = false := fun m hm => h m (by simp [hm])
    cases a <;> simp [isConnectMsg] at ha <;>
      simp [newConnectionLoop, batchEvent, ih ht]

/- ## Claim C9 -/

/-- C9: manhattan_distance equals the true Manhattan distance
abs (x1 - x2) + abs (y1 - y2) reduced mod 256; the true distance can reach
510 on the 8-bit grid (at which point the returned value wraps to 254), and
a strictly farther point can compare as nearer under the wrapped metric. -/
theorem c9_manhattan_wraps :
    (∀ a b : Pos, manhattan_distance a b = specManhattan a b % 256)
    ∧ specManhattan (255, 255) (0, 0) = 510
    ∧ manhattan_distance (255, 255) (0, 0) = 254
    ∧ manhattan_distance (255, 255) (0, 0) < manhattan_distance (255, 0) (0, 0)
    ∧ specManhattan (255, 0) (0, 0) < specManhattan (255, 255) (0, 0) :=
  ⟨fun _ _ => rfl, by decide, by decide, by decide, by decide⟩

/- ## Claim C10 -/

/-- C10: the ChangeStatus handler toggles the driver status (Busy becomes
Available and Available becomes Busy) rather than unconditionally setting it
Available, and it is an involution. -/
theorem c10_change_status_toggles :
    changeStatusHandler DriverStatus.Busy = DriverStatus.Available
    ∧ changeStatusHandler DriverStatus.Available = DriverStatus.Busy
    ∧ ∀ s : DriverStatus, changeStatusHandler (changeStatusHandler s) = s := by
  refine ⟨rfl, rfl, ?_⟩
  intro s
  cases s <;> rfl

/- ## Claim C1 -/

/-- Coordinator state used to evaluate the decline branch of the
TripResponse handler. -/
def exC1 : Driver where
  id := 0
  coordinates := (0, 0)
  status := DriverStatus.Available
  free_drivers_position := none
  driver_left_id := none
  driver_left_write := false
  driver_right_id := none
  driver_right_write := false
  coordinator_id := some 0
  passengers_trips := some []
  trips_drivers_declined := none
  started_trips := []

/-- C1: evaluating the coordinator's TripResponse handler on a decline from
driver 3 for passenger 7 shows the code pushes the passenger id, not the
driver id: afterwards declined[7] is [7], driver 3 is not a member, and the
position gather is restarted.  This contradicts both the claim and the
source's own documentation of trips_drivers_declined as a map to lists of
driver ids. -/
theorem c1_decline_pushes_passenger_id :
    (alookup 7 (((tripResponseHandler exC1
          { status := false, reason := none, passenger_id := 7, driver_id := 3 }).1.trips_drivers_declined).getD [])
      = some [7])
    ∧ (((alookup 7 (((tripResponseHandler exC1
          { status := false, reason := none, passenger_id := 7, driver_id := 3 }).1.trips_drivers_declined).getD [])).getD []).contains 3
      = false)
    ∧ ((tripResponseHandler exC1
          { status := false, reason := none, passenger_id := 7, driver_id := 3 }).2
      = [Out.CoordinatesRequestEv 7]) := by
  decide

/- ## Claim C4 -/

/-- Coordinator state with one pending trip for passenger 7, used to
evaluate the accept branch of the TripResponse handler. -/
def exC4 : Driver where
  id := 0
  coordinates := (0, 0)
  status := DriverStatus.Available
  free_drivers_position := none
  driver_left_id := none
  driver_left_write := false
  driver_right_id := none
  driver_right_write := false
  coordinator_id := some 0
  passengers_trips := some [(7, ((0, 0), (1, 1)))]
  trips_drivers_declined := none
  started_trips := []

/-- C4 counterexample: after the coordinator handles an accepting
TripResponse from driver 3 for passenger 7, the trip is recorded in
started_trips, but passenger 7 is still present in passengers_trips: the
handler does not remove the pending trip, so the pid is in both maps at
once, refuting the claimed exclusive-or. -/
theorem c4_pending_trip_not_cleared :
    (alookup 3 (tripResponseHandler exC4
        { status := true, reason := none, passenger_id := 7, driver_id := 3 }).1.started_trips
      = some 7)
    ∧ (alookup 7 ((tripResponseHandler exC4
          { status := true, reason := none, passenger_id := 7, driver_id := 3 }).1.passengers_trips.getD [])
      = some ((0, 0), (1, 1))) := by
  decide

/-- C4 amended: on an accepting TripResponse the coordinator records
started_trips[driver_id] = pid and forwards the response to the passenger,
but leaves passengers_trips untouched; the pending trip is only removed
later by the SendTripEnded handler. -/
theorem c4_accept_records_started_trip (d : Driver) (msg : TripResponse)
    (hcoord : d.coordinator_id = some d.id) (hstatus : msg.status = true) :
    alookup msg.driver_id (tripResponseHandler d msg).1.started_trips
      = some msg.passenger_id
    ∧ (tripResponseHandler d msg).1.passengers_trips = d.passengers_trips
    ∧ (tripResponseHandler d msg).2
      = [Out.SendToPassenger msg.passenger_id (Wire.P (PassengerMsg.TripResponse msg))] := by
  unfold tripResponseHandler
  rw [hcoord]
  simp [hstatus, alookup_ainsert]

/-- C4 amended, witness: the concrete accepting response of the
counterexample state instantiates the amended theorem. -/
theorem c4_accept_records_started_trip_witness :
    alookup 3 (tripResponseHandler exC4
        { status := true, reason := none, passenger_id := 7, driver_id := 3 }).1.started_trips
      = some 7
    ∧ (tripResponseHandler exC4
        { status := true, reason := none, passenger_id := 7, driver_id := 3 }).1.passengers_trips
      = exC4.passengers_trips
    ∧ (tripResponseHandler exC4
        { status := true, reason := none, passenger_id := 7, driver_id := 3 }).2
      = [Out.SendToPassenger 7 (Wire.P (PassengerMsg.TripResponse
          { status := true, reason := none, passenger_id := 7, driver_id := 3 }))] :=
  c4_accept_records_started_trip exC4
    { status := true, reason := none, passenger_id := 7, driver_id := 3 } rfl rfl

/- ## Claim C5 -/

/-- Coordinator state (driver 2) that accepted a trip from driver 1 for
passenger 7: started_trips records the in-flight trip. -/
def exC5 : Driver where
  id := 2
  coordinates := (0, 0)
  status := DriverStatus.Available
  free_drivers_position := none
  driver_left_id := some 1
  driver_left_write := true
  driver_right_id := some 0
  driver_right_write := true
  coordinator_id := some 2
  passengers_trips := some [(7, ((0, 0), (1, 1)))]
  trips_drivers_declined := none
  started_trips := [(1, 7)]

/-- The accepting driver 1, mid-trip, after reconnecting. -/
def exC5driver1 : Driver where
  id := 1
  coordinates := (5, 5)
  status := DriverStatus.Busy
  free_drivers_position := none
  driver_left_id := some 0
  driver_left_write := true
  driver_right_id := some 2
  driver_right_write := true
  coordinator_id := some 2
  passengers_trips := none
  trips_drivers_declined := none
  started_trips := []

/-- C5: the code permits two TripEnded messages for one accepted pid.  When
driver 1 reconnects mid-trip, the coordinator turns the DriverConnected into
an UnresolvedTrip, which driver 1 converts into an immediate SendTripEnded;
driver 1's 10 s trip timer is never cancelled and later posts a second
SendTripEnded; and the coordinator's SendTripEnded handler forwards
TripEnded to the passenger unconditionally, so processing the two
deliveries emits TripEnded twice (the second with no matching started_trips
entry). -/
theorem c5_trip_ended_emitted_twice :
    ((driverConnectedHandler exC5 { driver_id := 1 }).2
      = [Out.SendToRight (Wire.D (DriverMsg.UnresolvedTrip
          { passenger_id := 7, driver_id := 1 }))])
    ∧ ((unresolvedTripHandler exC5driver1 { passenger_id := 7, driver_id := 1 }).2
      = [Out.SendTripEndedEv 7])
    ∧ (tripEndedTimerFire exC5driver1 7
      = [Out.ChangeStatusEv,
          Out.SendToRight (Wire.D (DriverMsg.SendTripEnded { passenger_id := 7 }))])
    ∧ ((sendTripEndedHandler exC5 { passenger_id := 7 }).2
      = [Out.SendToPassenger 7 (Wire.P PassengerMsg.TripEnded)])
    ∧ ((sendTripEndedHandler exC5 { passenger_id := 7 }).1.started_trips = [])
    ∧ ((sendTripEndedHandler
          (sendTripEndedHandler exC5 { passenger_id := 7 }).1
          { passenger_id := 7 }).2
      = [Out.SendToPassenger 7 (Wire.P PassengerMsg.TripEnded)]) := by
  decide

/- ## Claim C6 -/

/-- A fresh joiner with id 2 and no coordinator belief yet. -/
def exC6 : Driver where
  id := 2
  coordinates := (0, 0)
  status := DriverStatus.Available
  free_drivers_position := none
  driver_left_id := none
  driver_left_write := false
  driver_right_id := none
  driver_right_write := false
  coordinator_id := none
  passengers_trips := none
  trips_drivers_declined := none
  started_trips := []

/-- C6 counterexample: when fresh joiner 2 links right to neighbor 1
(1 < 2), its own coordinator_id field stays none after the ConnectToRight
continuation runs; only the Connect message it sends advertises id 2, so
the claim that the field becomes its own id is false. -/
theorem c6_joiner_field_not_set :
    ((connectToRightSome exC6 1).1.coordinator_id = none)
    ∧ ((connectToRightSome exC6 1).2
      = [Out.SendToRight (Wire.D (DriverMsg.Connect
          { fromType := ConnectionType.Driver, id := 2, coordinator_id := some 2 }))]) := by
  decide

/-- C6 amended: a joiner whose new right neighbor id is below its own does
not update its own coordinator_id field; instead the Connect it emits
rightward advertises coordinator_id = its own id, the receiving neighbor
adopts that id and emits NewCoordinator with it rightward, and the joiner's
field is set to its own id only when that NewCoordinator reaches it. -/
theorem c6_joiner_advertises_self (d e : Driver) (rid : Nat) (h : rid < d.id) :
    (connectToRightSome d rid).1.coordinator_id = d.coordinator_id
    ∧ (connectToRightSome d rid).2
      = [Out.SendToRight (Wire.D (DriverMsg.Connect
          { fromType := ConnectionType.Driver, id := d.id, coordinator_id := some d.id }))]
    ∧ (handle_driver_connection e d.id (some d.id)).1.coordinator_id = some d.id
    ∧ Out.SendToRight (Wire.D (DriverMsg.NewCoordinator { id := d.id }))
        ∈ (handle_driver_connection e d.id (some d.id)).2
    ∧ (newCoordinatorHandler (connectToRightSome d rid).1 { id := d.id }).1.coordinator_id
      = some d.id := by
  refine ⟨?_, ?_, ?_, ?_, ?_⟩
  · simp [connectToRightSome, h]
  · simp [connectToRightSome, h]
  · by_cases hl : e.driver_left_write <;> simp [handle_driver_connection, hl]
  · by_cases hl : e.driver_left_write <;> simp [handle_driver_connection, hl]
  · simp [newCoordinatorHandler, connectToRightSome, h]

/-- C6 amended, witness: the fresh joiner 2 connecting right to neighbor 1,
with driver 0 as the recipient of its Connect. -/
def exC6recipient : Driver where
  id := 1
  coordinates := (0, 0)
  status := DriverStatus.Available
  free_drivers_position := none
  driver_left_id := none
  driver_left_write := false
  driver_right_id := some 0
  driver_right_write := true
  coordinator_id := some 1
  passengers_trips := none
  trips_drivers_declined := none
  started_trips := []

/-- C6 amended at the concrete joiner exC6 and recipient exC6recipient. -/
theorem c6_joiner_advertises_self_witness :
    (connectToRightSome exC6 1).1.coordinator_id = exC6.coordinator_id
    ∧ (connectToRightSome exC6 1).2
      = [Out.SendToRight (Wire.D (DriverMsg.Connect
          { fromType := ConnectionType.Driver, id := 2, coordinator_id := some 2 }))]
    ∧ (handle_driver_connection exC6recipient 2 (some 2)).1.coordinator_id = some 2
    ∧ Out.SendToRight (Wire.D (DriverMsg.NewCoordinator { id := 2 }))
        ∈ (handle_driver_connection exC6recipient 2 (some 2)).2
    ∧ (newCoordinatorHandler (connectToRightSome exC6 1).1 { id := 2 }).1.coordinator_id
      = some 2 :=
  c6_joiner_advertises_self exC6 exC6recipient 1 (by decide)

/- ## Claim C2 -/

/-- Coordinator state whose availability snapshot contains driver 1 at
(255, 255) and driver 2 at (255, 0), with passenger 7's trip from (0, 0);
no driver has declined. -/
def exC2 : Driver where
  id := 0
  coordinates := (0, 0)
  status := DriverStatus.Available
  free_drivers_position := some [(1, (255, 255)), (2, (255, 0))]
  driver_left_id := none
  driver_left_write := false
  driver_right_id := some 1
  driver_right_write := true
  coordinator_id := some 0
  passengers_trips := some [(7, ((0, 0), (9, 9)))]
  trips_drivers_declined := none
  started_trips := []

/-- C2 counterexample: SelectDriver offers the trip to driver 1, whose true
Manhattan distance to the origin is 510, even though the non-declined
snapshot entry 2 is strictly nearer (true distance 255): the wrapped u8
metric makes 510 compare as 254, so the selected driver does not minimise
the true distance the claim states. -/
theorem c2_farther_driver_selected :
    ((selectDriverHandler exC2 7).2
      = [Out.OfferToDriverEv
          { driver_id := 1, origin := (0, 0), destination := (9, 9), passenger_id := 7 }])
    ∧ (exC2.free_drivers_position = some [(1, (255, 255)), (2, (255, 0))])
    ∧ (declinedOf exC2 7 = [])
    ∧ (specManhattan (255, 0) (0, 0) < specManhattan (255, 255) (0, 0)) := by
  decide

/-- C2 amended: the driver selected by SelectDriver is an entry of the
snapshot whose id is not in declined[pid] and that minimises the wrapped
8-bit distance manhattan_distance (the true Manhattan distance mod 256) to
the origin; among entries of equal wrapped distance the one earliest in the
snapshot's iteration order is offered (the HashMap order, not the smallest
id). -/
theorem c2_selection_minimises_wrapped (d : Driver) (pid : Nat)
    (S : List (Nat × Pos)) (T : List (Nat × (Pos × Pos))) (start dest : Pos)
    (o : OfferToDriver)
    (hS : d.free_drivers_position = some S)
    (hT : d.passengers_trips = some T)
    (htrip : alookup pid T = some (start, dest))
    (hsel : (selectDriverHandler d pid).2 = [Out.OfferToDriverEv o]) :
    o.passenger_id = pid ∧ o.origin = start ∧ o.destination = dest
    ∧ ∃ pos l1 l2,
        S.filter (fun e => !((declinedOf d pid).contains e.1))
          = l1 ++ (o.driver_id, pos) :: l2
        ∧ (o.driver_id, pos) ∈ S
        ∧ (declinedOf d pid).contains o.driver_id = false
        ∧ (∀ y ∈ l1,
            manhattan_distance pos start < manhattan_distance y.2 start)
        ∧ (∀ y ∈ l2,
            manhattan_distance pos start ≤ manhattan_distance y.2 start)
        ∧ (∀ f ∈ S, (declinedOf d pid).contains f.1 = false →
            manhattan_distance pos start ≤ manhattan_distance f.2 start) := by
  unfold selectDriverHandler at hsel
  rw [hS, hT] at hsel
  simp only [] at hsel
  rw [htrip] at hsel
  simp only [] at hsel
  cases hmin : minByKey (fun e => manhattan_distance e.2 start)
      (S.filter (fun e => !((declinedOf d pid).contains e.1))) with
  | none =>
    rw [hmin] at hsel
    simp at hsel
  | some e =>
    rw [hmin] at hsel
    simp only [List.cons.injEq, and_true, Out.OfferToDriverEv.injEq] at hsel
    obtain ⟨l1, l2, heq, hlt, hle⟩ :=
      minByKey_eq_some (fun e => manhattan_distance e.2 start) _ e hmin
    have hmem : e ∈ S.filter (fun e => !((declinedOf d pid).contains e.1)) := by
      rw [heq]; simp
    have hmemS : e ∈ S := List.mem_of_mem_filter hmem
    have hnd : (declinedOf d pid).contains e.1 = false := by
      have := List.of_mem_filter hmem
      simpa using this
    subst hsel
    refine ⟨rfl, rfl, rfl, e.2, l1, l2, ?_, ?_, hnd, hlt, hle, ?_⟩
    · simpa using heq
    · simpa using hmemS
    · intro f hf hfnd
      have hfmem : f ∈ S.filter (fun e => !((declinedOf d pid).contains e.1)) :=
        List.mem_filter.mpr ⟨hf, by simp only [hfnd, Bool.not_false]⟩
      rw [heq] at hfmem
      rcases List.mem_append.mp hfmem with h1 | h2
      · exact le_of_lt (hlt f h1)
      · rcases List.mem_cons.mp h2 with h3 | h4
        · rw [h3]
        · exact hle f h4

/-- C2 amended, witness: on the concrete snapshot of exC2 the offer goes to
driver 1 at (255, 255), the first filtered entry attaining the minimal
wrapped distance. -/
theorem c2_selection_minimises_wrapped_witness :
    (7 : Nat) = 7 ∧ ((0, 0) : Pos) = (0, 0) ∧ ((9, 9) : Pos) = (9, 9)
    ∧ ∃ pos l1 l2,
        ([(1, ((255 : Nat), (255 : Nat))), (2, (255, 0))].filter
            (fun e => !((declinedOf exC2 7).contains e.1)))
          = l1 ++ ((1 : Nat), pos) :: l2
        ∧ ((1 : Nat), pos) ∈ [((1 : Nat), ((255 : Nat), (255 : Nat))), (2, (255, 0))]
        ∧ (declinedOf exC2 7).contains 1 = false
        ∧ (∀ y ∈ l1,
            manhattan_distance pos (0, 0) < manhattan_distance y.2 (0, 0))
        ∧ (∀ y ∈ l2,
            manhattan_distance pos (0, 0) ≤ manhattan_distance y.2 (0, 0))
        ∧ (∀ f ∈ [((1 : Nat), ((255 : Nat), (255 : Nat))), (2, (255, 0))],
            (declinedOf exC2 7).contains f.1 = false →
            manhattan_distance pos (0, 0) ≤ manhattan_distance f.2 (0, 0)) :=
  c2_selection_minimises_wrapped exC2 7
    [(1, (255, 255)), (2, (255, 0))] [(7, ((0, 0), (9, 9)))] (0, 0) (9, 9)
    { driver_id := 1, origin := (0, 0), destination := (9, 9), passenger_id := 7 }
    rfl rfl rfl (by decide)

/- ## Claim C3 -/

/-- Coordinator state where the only snapshot entry (driver 1) is already
in passenger 5's declined list. -/
def exC3 : Driver where
  id := 0
  coordinates := (0, 0)
  status := DriverStatus.Available
  free_drivers_position := some [(1, (4, 4))]
  driver_left_id := none
  driver_left_write := false
  driver_right_id := some 1
  driver_right_write := true
  coordinator_id := some 0
  passengers_trips := some [(5, ((0, 0), (2, 2)))]
  trips_drivers_declined := some [(5, [1])]
  started_trips := []

/-- C3 counterexample: with every snapshot entry declined, the handler does
send the passenger TripResponse with status false and reason NotAccepted
and does delete the pending trip, but trips_drivers_declined still holds
the entry for passenger 5 afterwards, refuting the claim that declined[pid]
is deleted on terminal failure. -/
theorem c3_declined_set_not_deleted :
    ((selectDriverHandler exC3 5).1.trips_drivers_declined = some [(5, [1])])
    ∧ ((selectDriverHandler exC3 5).2
      = [Out.SendToPassenger 5 (Wire.D (DriverMsg.TripResponse
          { status := false, reason := some DeclineReason.NotAccepted,
            passenger_id := 5, driver_id := 0 }))])
    ∧ (alookup 5 ((selectDriverHandler exC3 5).1.passengers_trips.getD []) = none) := by
  decide

/-- C3 amended: when SelectDriver finds no candidate, the coordinator sends
the passenger TripResponse with status false, reason DriversBusy when
declined[pid] is empty and NotAccepted otherwise, and deletes
pending_trips[pid]; declined[pid] is left in place (it is only cleared when
the passenger later sends a new TripRequest). -/
theorem c3_no_candidate_reply (d : Driver) (pid : Nat)
    (S : List (Nat × Pos)) (T : List (Nat × (Pos × Pos))) (start dest : Pos)
    (hS : d.free_drivers_position = some S)
    (hT : d.passengers_trips = some T)
    (htrip : alookup pid T = some (start, dest))
    (hempty : S.filter (fun e => !((declinedOf d pid).contains e.1)) = []) :
    (selectDriverHandler d pid).2
      = [Out.SendToPassenger pid (Wire.D (DriverMsg.TripResponse
          { status := false,
            reason := if (declinedOf d pid).length = 0
              then some DeclineReason.DriversBusy
              else some DeclineReason.NotAccepted,
            passenger_id := pid, driver_id := d.id }))]
    ∧ alookup pid ((selectDriverHandler d pid).1.passengers_trips.getD []) = none
    ∧ (selectDriverHandler d pid).1.trips_drivers_declined = d.trips_drivers_declined := by
  have hmin : minByKey (fun e => manhattan_distance e.2 start)
      (S.filter (fun e => !((declinedOf d pid).contains e.1))) = none := by
    rw [hempty]; rfl
  unfold selectDriverHandler
  rw [hS, hT]
  simp only []
  rw [htrip]
  simp only []
  rw [hmin]
  simp only []
  refine ⟨?_, ?_, ?_⟩
  · cases hlen : (declinedOf d pid).length with
    | zero => simp
    | succ n => simp
  · simp [alookup_aremove]
  · trivial

/-- C3 amended, witness: the concrete all-declined state exC3. -/
theorem c3_no_candidate_reply_witness :
    (selectDriverHandler exC3 5).2
      = [Out.SendToPassenger 5 (Wire.D (DriverMsg.TripResponse
          { status := false,
            reason := if (declinedOf exC3 5).length = 0
              then some DeclineReason.DriversBusy
              else some DeclineReason.NotAccepted,
            passenger_id := 5, driver_id := exC3.id }))]
    ∧ alookup 5 ((selectDriverHandler exC3 5).1.passengers_trips.getD []) = none
    ∧ (selectDriverHandler exC3 5).1.trips_drivers_declined
      = exC3.trips_drivers_declined :=
  c3_no_candidate_reply exC3 5 [(1, (4, 4))] [(5, ((0, 0), (2, 2)))] (0, 0) (2, 2)
    rfl rfl rfl (by decide)

/- ## Claim C7 -/

/-- C7 counterexample: the batch read on a brand-new connection is
dispatched in reverse: for the two-line batch DriverConnected 1 then
DriverConnected 2 the handler posts the events for line 2 first, not in the
order the lines appear in the TCP byte stream. -/
theorem c7_batch_dispatched_in_reverse :
    (parse_messages
        [some (DriverMsg.DriverConnected { driver_id := 1 }),
          some (DriverMsg.DriverConnected { driver_id := 2 })]
      = [DriverMsg.DriverConnected { driver_id := 1 },
          DriverMsg.DriverConnected { driver_id := 2 }])
    ∧ (newConnectionDispatch
        [DriverMsg.DriverConnected { driver_id := 1 },
          DriverMsg.DriverConnected { driver_id := 2 }]
      = [Out.DriverConnectedEv { driver_id := 2 },
          Out.DriverConnectedEv { driver_id := 1 }])
    ∧ (newConnectionDispatch
        [DriverMsg.DriverConnected { driver_id := 1 },
          DriverMsg.DriverConnected { driver_id := 2 }]
      ≠ [Out.DriverConnectedEv { driver_id := 1 },
          Out.DriverConnectedEv { driver_id := 2 }]) := by
  decide

/-- C7 amended: the steady receive loop of a neighbor connection dispatches
the decoded lines in stream byte order (shown here for reads whose lines
all decode to loop-continuing ring messages), but the initial batch read in
the NewConnection handler iterates the parsed lines reversed, so that batch
is dispatched in reverse line order. -/
theorem c7_dispatch_order (msgs batch : List DriverMsg)
    (hring : ∀ m ∈ msgs, ringDispatchable m = true)
    (hbatch : ∀ m ∈ batch, isConnectMsg m = false) :
    reciveDriverDispatch (msgs.map some) = msgs.map ringEvent
    ∧ newConnectionDispatch batch = (batch.map batchEvent).reverse := by
  refine ⟨reciveDispatch_in_order msgs hring, ?_⟩
  unfold newConnectionDispatch
  rw [newConnectionLoop_map batch.reverse
    (fun m hm => hbatch m (List.mem_reverse.mp hm))]
  rw [List.map_reverse]

/-- C7 amended, witness: a two-line steady read and the two-line batch of
the counterexample. -/
theorem c7_dispatch_order_witness :
    reciveDriverDispatch
        ([DriverMsg.NewCoordinator { id := 3 },
          DriverMsg.SendTripEnded { passenger_id := 4 }].map some)
      = [DriverMsg.NewCoordinator { id := 3 },
          DriverMsg.SendTripEnded { passenger_id := 4 }].map ringEvent
    ∧ newConnectionDispatch
        [DriverMsg.DriverConnected { driver_id := 1 },
          DriverMsg.DriverConnected { driver_id := 2 }]
      = ([DriverMsg.DriverConnected { driver_id := 1 },
          DriverMsg.DriverConnected { driver_id := 2 }].map batchEvent).reverse :=
  c7_dispatch_order
    [DriverMsg.NewCoordinator { id := 3 }, DriverMsg.SendTripEnded { passenger_id := 4 }]
    [DriverMsg.DriverConnected { driver_id := 1 },
      DriverMsg.DriverConnected { driver_id := 2 }]
    (by decide) (by decide)

/- ## Claim C8 -/

/-- The TripResponse payloads among a handler's emissions, whether framed
for the ring or for a passenger. -/
def tripResponsesOf (outs : List Out) : List TripResponse :=
  outs.filterMap fun o =>
    match o with
    | Out.SendToRight (Wire.D (DriverMsg.TripResponse tr)) => some tr
    | Out.SendToPassenger _ (Wire.D (DriverMsg.TripResponse tr)) => some tr
    | Out.SendToPassenger _ (Wire.P (PassengerMsg.TripResponse tr)) => some tr
    | _ => none

/-- C8: a driver handling an offer addressed to itself emits exactly one
TripResponse carrying its own id and the passenger's id; when the driver is
Busy the response status is false for every value of the random draw, and
when it is Available the status equals the draw. -/
theorem c8_offer_decision (d : Driver) (offer : OfferToDriver) (coin : Bool)
    (hself : offer.driver_id = d.id) :
    (d.status = DriverStatus.Busy →
      tripResponsesOf (handleOfferHandler d offer coin).2
        = [{ status := false, reason := none,
               passenger_id := offer.passenger_id, driver_id := d.id }])
    ∧ (d.status = DriverStatus.Available →
      tripResponsesOf (handleOfferHandler d offer coin).2
        = [{ status := coin, reason := none,
               passenger_id := offer.passenger_id, driver_id := d.id }]) := by
  have key : ∀ st : Bool,
      (if d.status = DriverStatus.Busy then false else coin) = st →
      tripResponsesOf (handleOfferHandler d offer coin).2
        = [{ status := st, reason := none,
             passenger_id := offer.passenger_id, driver_id := d.id }] := by
    intro st hst
    simp only [handleOfferHandler]
    rw [if_pos hself, hst]
    by_cases hc : d.id = d.coordinator_id.getD d.id
    · rw [if_pos hc]
      cases st <;> simp [tripResponsesOf]
    · rw [if_neg hc]
      cases st <;> simp [tripResponsesOf]
  constructor
  · intro hbusy
    exact key false (by rw [hbusy]; simp)
  · intro havail
    exact key coin (by rw [havail]; simp)

/-- Concrete Available driver 4 for the C8 witness. -/
def exC8 : Driver where
  id := 4
  coordinates := (3, 3)
  status := DriverStatus.Available
  free_drivers_position := none
  driver_left_id := some 3
  driver_left_write := true
  driver_right_id := some 0
  driver_right_write := true
  coordinator_id := some 0
  passengers_trips := none
  trips_drivers_declined := none
  started_trips := []

/-- C8, witness: the Available driver 4 receiving an offer for passenger 9
with the coin landing true. -/
theorem c8_offer_decision_witness :
    (exC8.status = DriverStatus.Busy →
      tripResponsesOf (handleOfferHandler exC8
          { driver_id := 4, origin := (1, 1), destination := (2, 2), passenger_id := 9 }
          true).2
        = [{ status := false, reason := none, passenger_id := 9, driver_id := 4 }])
    ∧ (exC8.status = DriverStatus.Available →
      tripResponsesOf (handleOfferHandler exC8
          { driver_id := 4, origin := (1, 1), destination := (2, 2), passenger_id := 9 }
          true).2
        = [{ status := true, reason := none, passenger_id := 9, driver_id := 4 }]) :=
  c8_offer_decision exC8
    { driver_id := 4, origin := (1, 1), destination := (2, 2), passenger_id := 9 }
    true rfl

end RideDispatch
